import Mathlib

/-!
Verification development for the `nwsl` newsletter utility.

The embedding below translates the two core algorithms of the program —
the subscriber deriver (`EmailService.get_subscribers` in
`src/newsletter/email_service/email_service.py`, whose message loop is
shared verbatim with `sync_subscribers` in `src/newsletter/newsletter.py`)
and the content selector / message composition / dry-run gate of the
`send-email` command (`src/newsletter/newsletter.py` and
`EmailService.send_email`) — into executable Lean definitions.

Strings are modelled as Lean `String`s; the explicit ASCII character
classes of the Python regexes are translated character by character.
Python's `str.lower` is modelled by mapping Lean's ASCII `Char.toLower`
over the characters (the subjects and addresses the program cares about
are ASCII).
-/

namespace Nwsl

/-- A fetched inbox message, reduced to the two headers the scan reads:
`sender = msg['from']` and `subject = msg['subject']`. -/
structure Message where
  sender : String
  subject : String
deriving DecidableEq, Repr

/-- Character class `[a-zA-Z0-9_.+-]` — the local part of the permissive
address regex in `get_subscribers` / `sync_subscribers`. -/
def isLocalChar (c : Char) : Bool :=
  (('a' ≤ c && c ≤ 'z') || ('A' ≤ c && c ≤ 'Z') || ('0' ≤ c && c ≤ '9')
    || c = '_' || c = '.' || c = '+' || c = '-')

/-- Character class `[a-zA-Z0-9-]` — the first domain segment of the
address regex. -/
def isDomainChar (c : Char) : Bool :=
  (('a' ≤ c && c ≤ 'z') || ('A' ≤ c && c ≤ 'Z') || ('0' ≤ c && c ≤ '9') || c = '-')

/-- Character class `[a-zA-Z0-9-.]` — the tail of the domain in the
address regex. -/
def isDomainTailChar (c : Char) : Bool :=
  (('a' ≤ c && c ≤ 'z') || ('A' ≤ c && c ≤ 'Z') || ('0' ≤ c && c ≤ '9')
    || c = '-' || c = '.')

/-- Attempt to match the regex `[a-zA-Z0-9_.+-]+@[a-zA-Z0-9-]+\.[a-zA-Z0-9-.]+`
anchored at the head of the character list, returning the matched
characters.  Each `X+` is greedy; since the literal that follows each
class (`@`, `.`) is outside the class, the greedy match needs no
backtracking: the maximal run must be followed by the literal. -/
def matchEmailAt (cs : List Char) : Option (List Char) :=
  let loc := cs.takeWhile isLocalChar
  let rest := cs.dropWhile isLocalChar
  if loc.isEmpty then none else
  match rest with
  | '@' :: rest2 =>
    let dom := rest2.takeWhile isDomainChar
    let rest3 := rest2.dropWhile isDomainChar
    if dom.isEmpty then none else
    match rest3 with
    | '.' :: rest4 =>
      let tail := rest4.takeWhile isDomainTailChar
      if tail.isEmpty then none
      else some (loc ++ '@' :: (dom ++ '.' :: tail))
    | _ => none
  | _ => none

/-- Leftmost search for the address regex, as `re.search` does: try each
start position from the left and return the first full match. -/
def searchEmail : List Char → Option (List Char)
  | [] => none
  | c :: rest =>
    match matchEmailAt (c :: rest) with
    | some m => some m
    | none => searchEmail rest

/-- Embedding of `re.search(email_regex, sender)` followed by `.group()`:
the first (leftmost) substring of `sender` matching the permissive
address pattern, or `none` when the header has no parseable address. -/
def findEmail (sender : String) : Option String :=
  (searchEmail sender.data).map fun cs => String.mk cs

/-- Python substring containment `needle in hay`, on character lists. -/
def containsSub : List Char → List Char → Bool
  | hay, needle =>
    needle.isPrefixOf hay ||
      match hay with
      | [] => false
      | _ :: rest => containsSub rest needle

/-- Membership test `sender_email in subscribers` (Python list `in`). -/
def pyMem (subscribers : List String) (x : String) : Bool :=
  subscribers.contains x

/-- Python `subject.lower()`, on the character list of an ASCII string:
map each uppercase ASCII letter to its lowercase form. -/
def lowerChars (cs : List Char) : List Char :=
  cs.map Char.toLower

/-- The per-message update of the scan loop (lines 58–61 of
`email_service.py`, identical to lines 81–86 of `newsletter.py`):

    if 'unsubscribe' in subject.lower() and sender_email in subscribers:
        subscribers.remove(sender_email)
    elif 'subscribe' in subject.lower() and not sender_email in subscribers:
        subscribers.append(sender_email)

`list.remove` removes the first occurrence, modelled by `List.erase`. -/
def applyMsg (subscribers : List String) (sender_email : String) (subject : String) :
    List String :=
  if containsSub (lowerChars subject.data) "unsubscribe".data && pyMem subscribers sender_email then
    subscribers.erase sender_email
  else if containsSub (lowerChars subject.data) "subscribe".data && !pyMem subscribers sender_email then
    subscribers ++ [sender_email]
  else
    subscribers

/-- Embedding of the message loop of `EmailService.get_subscribers`
(and of `sync_subscribers`): fold the messages in inbox order into the
accumulating subscriber list, and on the first message whose `from`
header has no parseable address, `break` — return the list accumulated
so far without touching the remaining messages. -/
def get_subscribers : List Message → List String → List String
  | [], subscribers => subscribers
  | msg :: rest, subscribers =>
    match findEmail msg.sender with
    | none => subscribers
    | some sender_email => get_subscribers rest (applyMsg subscribers sender_email msg.subject)

/-- An input document of the `send-email` command: the CLI passes a
`click.File`, of which the code uses the filename (`filepath.name`) and
the contents (`filepath.read()`). -/
structure Document where
  name : String
  body : String
deriving DecidableEq, Repr

/-- Python `s.endswith(suffixStr)`, computed on character lists. -/
def pyEndsWith (s suffixStr : String) : Bool :=
  suffixStr.data.reverse.isPrefixOf s.data.reverse

/-- Embedding of `is_html` in the `send_email` command of
`newsletter.py`: `filepath.endswith('.html')` — the classifier looks at
the file NAME, not at the document text. -/
def is_html (filepath : String) : Bool :=
  pyEndsWith filepath ".html"

/-- Follows the spec's words, not the source, for comparison with
`is_html`: "a text is HTML if it contains the literal case-insensitive
substring `<html>`". -/
def isHtmlSpec (text : String) : Bool :=
  containsSub (lowerChars text.data) "<html>".data

/-- The resolved `(html, plain)` body combination for one send. -/
structure ContentPair where
  html : Option String
  plain : Option String
deriving DecidableEq, Repr

/-- Embedding of the content-selection block of the `send_email` command
(`newsletter.py` lines 198–221): validate the two-file classification
(raising a `click.UsageError` with the code's exact message on conflict)
and assign the bodies into the pair by classification. -/
def selectContent (filepath : Document) (alternative : Option Document) :
    Except String ContentPair :=
  let is_filepath_html := is_html filepath.name
  match alternative with
  | some alt =>
    if is_filepath_html && is_html alt.name then
      Except.error "Both files are HTML; you should provide 1 HTML file and 1 plain text file"
    else if !is_filepath_html && !is_html alt.name then
      Except.error "Neither file is HTML; you should provide 1 HTML file and 1 plain text file"
    else
      Except.ok { html := if is_filepath_html then some filepath.body else some alt.body
                , plain := if is_filepath_html then some alt.body else some filepath.body }
  | none =>
    Except.ok { html := if is_filepath_html then some filepath.body else none
              , plain := if is_filepath_html then none else some filepath.body }

/-- A Python runtime exception raised by the modelled code (the only one
the embedding needs is `TypeError`, raised when `None` reaches
`html.unescape` / `re.search` / slicing). -/
inductive PyErr where
  | typeError
deriving DecidableEq, Repr

/-- Does the list start with the literal `</h1>`? -/
def isCloseH1 (cs : List Char) : Bool :=
  ("</h1>".data).isPrefixOf cs

/-- Greedy match of `(.+)</h1>` anchored at the head of the list: the
longest nonempty newline-free prefix `x` such that `</h1>` follows it,
as Python's backtracking greedy `.+` produces. -/
def greedyCap : List Char → Option (List Char)
  | [] => none
  | c :: rest =>
    if c = '\n' then none
    else
      match greedyCap rest with
      | some x => some (c :: x)
      | none => if isCloseH1 rest then some [c] else none

/-- Leftmost search for `<h1>(.+)</h1>`: try each start position from
the left; at a position where the literal `<h1>` matches but no valid
capture+close follows, move one position right, as `re.search` does. -/
def findH1 : List Char → Option (List Char)
  | [] => none
  | c :: rest =>
    if ("<h1>".data).isPrefixOf (c :: rest) then
      match greedyCap ((c :: rest).drop 4) with
      | some x => some x
      | none => findH1 rest
    else findH1 rest

/-- Embedding of `find_title_in_html`: `re.search(r"<h1>(.+)<\/h1>", html)`
and group 1 of the match. -/
def find_title_in_html (s : String) : Option String :=
  (findH1 s.data).map fun cs => String.mk cs

/-- Leftmost search for `# (.+)`: at each position where the literal
`# ` matches, the greedy capture is the rest of the line; it must be
nonempty, else the search moves right. -/
def findMd : List Char → Option (List Char)
  | [] => none
  | c :: rest =>
    if ("# ".data).isPrefixOf (c :: rest) then
      let cap := ((c :: rest).drop 2).takeWhile fun ch => ch ≠ '\n'
      if cap.isEmpty then findMd rest else some cap
    else findMd rest

/-- Embedding of `find_title_in_markdown`: `re.search(r"# (.+)", md)`
and group 1 of the match. -/
def find_title_in_markdown (s : String) : Option String :=
  (findMd s.data).map fun cs => String.mk cs

/-- Python truthiness of an optional string: `None` and `""` are falsy. -/
def strTruthy : Option String → Bool
  | none => false
  | some s => !s.data.isEmpty

/-- Python `a or b` on two strings: `b` when `a` is falsy (empty). -/
def pyOrStr (a b : String) : String :=
  if a.data.isEmpty then b else a

/-- Embedding of the title expression of `EmailService.send_email`
(`email_service.py` lines 85–87):

    title = (html.unescape(find_title_in_html(html_text))
             if html_text
             else find_title_in_markdown(plain_text)) or 'Untitled'

`html.unescape` is the Python standard library's HTML-entity decoder, an
external collaborator; it is abstracted as the `unescape` parameter.
When the HTML part is truthy but contains no `<h1>` capture,
`find_title_in_html` returns `None` and `html.unescape(None)` raises a
`TypeError`; when the HTML part is falsy and `plain_text` is `None`,
`re.search` on `None` raises a `TypeError`. -/
def title_email_service (unescape : String → String) (html_text plain_text : Option String) :
    Except PyErr String :=
  if strTruthy html_text then
    match find_title_in_html (html_text.getD "") with
    | some t => Except.ok (pyOrStr (unescape t) "Untitled")
    | none => Except.error PyErr.typeError
  else
    match plain_text with
    | none => Except.error PyErr.typeError
    | some p => Except.ok (pyOrStr ((find_title_in_markdown p).getD "") "Untitled")

/-- Embedding of the title expression of `send_email_func`
(`newsletter.py` line 154):

    title = find_title_in_html(html_text) if html_text else find_title_in_markdown(plain_text) or 'Untitled'

By Python operator precedence the `or 'Untitled'` applies only to the
`else` branch, so a truthy HTML part without an `<h1>` yields `None`. -/
def title_newsletter (html_text plain_text : Option String) : Except PyErr (Option String) :=
  if strTruthy html_text then
    Except.ok (find_title_in_html (html_text.getD ""))
  else
    match plain_text with
    | none => Except.error PyErr.typeError
    | some p => Except.ok (some (pyOrStr ((find_title_in_markdown p).getD "") "Untitled"))

/-- Outcome of one run of a send routine: it crashed before the send
decision, invoked `server.sendmail` ("Sent ..."), reported a dry run
("Would have sent ..."), or declined ("Did not send ..."). -/
inductive SendOutcome where
  | crashed
  | sent (title : String)
  | wouldSend (title : String)
  | notSent (title : String)
deriving DecidableEq, Repr

/-- Did the run invoke the send collaborator (`server.sendmail`)? -/
def isSentOutcome : SendOutcome → Bool
  | SendOutcome.sent _ => true
  | _ => false

/-- The preview `click.echo(f"... {(plain_text or html_text)[:300]} ...")`
raises a `TypeError` exactly when `plain_text or html_text` evaluates to
`None`: `plain_text` falsy and `html_text` absent. -/
def previewCrashes (html_text plain_text : Option String) : Bool :=
  !strTruthy plain_text && html_text == none

/-- Embedding of the effectful tail of `EmailService.send_email`
(`email_service.py` lines 85–116): derive the title (which can raise),
echo the preview (which can raise), then decide the send:
`server.sendmail` runs iff `not dry_run and (not sys.stdin.isatty() or
click.confirm(...))`; with `dry_run` it reports what it would have sent.
The SMTP connection and login are abstracted as succeeding; the
`subscribers` list only feeds the progress messages. -/
def send_email_service (unescape : String → String) (html_text plain_text : Option String)
    (subscribers : List String) (dry_run isatty confirmAnswer : Bool) : SendOutcome :=
  match title_email_service unescape html_text plain_text with
  | Except.error _ => SendOutcome.crashed
  | Except.ok title =>
    if previewCrashes html_text plain_text then SendOutcome.crashed
    else if !dry_run && (!isatty || confirmAnswer) then SendOutcome.sent title
    else if dry_run then SendOutcome.wouldSend title
    else SendOutcome.notSent title

/-- Embedding of the effectful tail of `send_email_func`
(`newsletter.py` lines 154–180): same shape, but the send condition is
`not dry_run and click.confirm(...)` and a missing title prints as
Python's `None`. -/
def send_email_func (html_text plain_text : Option String) (subject : Option String)
    (subscribers : List String) (dry_run confirmAnswer : Bool) : SendOutcome :=
  match title_newsletter html_text plain_text with
  | Except.error _ => SendOutcome.crashed
  | Except.ok t =>
    if previewCrashes html_text plain_text then SendOutcome.crashed
    else if !dry_run && confirmAnswer then SendOutcome.sent (t.getD "None")
    else if dry_run then SendOutcome.wouldSend (t.getD "None")
    else SendOutcome.notSent (t.getD "None")

/-- Embedding of the `send-email` command (`newsletter.py` lines
191–223): derive the subscribers from the inbox, validate and select the
content (a `UsageError` aborts the command before any send attempt),
then run `send_email_func` on the selected pair. -/
def send_email_cmd (msgs : List Message) (filepath : Document) (alternative : Option Document)
    (subject : Option String) (dry_run confirmAnswer : Bool) : Except String SendOutcome :=
  let subscribers := get_subscribers msgs []
  match selectContent filepath alternative with
  | Except.error e => Except.error e
  | Except.ok pair =>
    Except.ok (send_email_func pair.html pair.plain subject subscribers dry_run confirmAnswer)

/-- One step of the scan viewed as a fold over an explicit state: the
`Bool` component records whether the scan has hit the `break` (a message
with no parseable address); a halted state ignores all later messages. -/
def scanStep (st : Bool × List String) (msg : Message) : Bool × List String :=
  if st.1 then st
  else
    match findEmail msg.sender with
    | none => (true, st.2)
    | some sender_email => (false, applyMsg st.2 sender_email msg.subject)

theorem foldl_scanStep_halted (msgs : List Message) (s : List String) :
    List.foldl scanStep (true, s) msgs = (true, s) := by
  induction msgs with
  | nil => rfl
  | cons m rest ih => simpa [scanStep] using ih

theorem get_subscribers_eq_foldl (msgs : List Message) (acc : List String) :
    get_subscribers msgs acc = (List.foldl scanStep (false, acc) msgs).2 := by
  induction msgs generalizing acc with
  | nil => rfl
  | cons m rest ih =>
    cases h : findEmail m.sender with
    | none => simp [get_subscribers, scanStep, h, foldl_scanStep_halted]
    | some e => simp [get_subscribers, scanStep, h, ih]

theorem applyMsg_nodup (subs : List String) (e subj : String) (h : subs.Nodup) :
    (applyMsg subs e subj).Nodup := by
  unfold applyMsg
  split
  · exact h.erase e
  · split
    · rename_i hcond
      have hmem : e ∉ subs := by
        simp [pyMem] at hcond
        exact hcond.2
      simp [List.nodup_append, h, hmem]
    · exact h

theorem get_subscribers_nodup (msgs : List Message) (acc : List String) (h : acc.Nodup) :
    (get_subscribers msgs acc).Nodup := by
  induction msgs generalizing acc with
  | nil => simpa [get_subscribers] using h
  | cons m rest ih =>
    cases hf : findEmail m.sender with
    | none => simpa [get_subscribers, hf] using h
    | some e => simpa [get_subscribers, hf] using ih _ (applyMsg_nodup _ _ _ h)

theorem get_subscribers_halt (pre : List Message) (m : Message) (post : List Message)
    (acc : List String) (h : findEmail m.sender = none) :
    get_subscribers (pre ++ m :: post) acc = get_subscribers pre acc := by
  induction pre generalizing acc with
  | nil => simp [get_subscribers, h]
  | cons p rest ih =>
    cases hp : findEmail p.sender with
    | none => simp [get_subscribers, hp]
    | some e => simp [get_subscribers, hp, ih]

theorem mem_applyMsg {subs : List String} {e subj a : String}
    (h : a ∈ applyMsg subs e subj) : a ∈ subs ∨ a = e := by
  unfold applyMsg at h
  split at h
  · exact Or.inl (List.mem_of_mem_erase h)
  · split at h
    · rcases List.mem_append.mp h with h1 | h1
      · exact Or.inl h1
      · simp at h1
        exact Or.inr h1
    · exact Or.inl h

theorem mem_get_subscribers (msgs : List Message) (acc : List String) (a : String)
    (h : a ∈ get_subscribers msgs acc) :
    a ∈ acc ∨ ∃ m, m ∈ msgs.takeWhile (fun mm => (findEmail mm.sender).isSome) ∧
      findEmail m.sender = some a := by
  induction msgs generalizing acc with
  | nil => exact Or.inl (by simpa [get_subscribers] using h)
  | cons m rest ih =>
    cases hf : findEmail m.sender with
    | none =>
      rw [show get_subscribers (m :: rest) acc = acc by simp [get_subscribers, hf]] at h
      exact Or.inl h
    | some e =>
      rw [show get_subscribers (m :: rest) acc = get_subscribers rest (applyMsg acc e m.subject)
            by simp [get_subscribers, hf]] at h
      rcases ih _ h with h1 | ⟨m1, hm1, hfa⟩
      · rcases mem_applyMsg h1 with h2 | h2
        · exact Or.inl h2
        · refine Or.inr ⟨m, ?_, by rw [hf, h2]⟩
          simp [List.takeWhile_cons, hf]
      · refine Or.inr ⟨m1, ?_, hfa⟩
        simp only [List.takeWhile_cons, hf, Option.isSome_some, if_true]
        exact List.mem_cons_of_mem _ hm1

/-- C1: the claim states that a message whose lower-cased subject
contains "unsubscribe" never adds its sender, and that
`[unsubscribe(A)]` from the empty set yields the empty set.  The code
does the opposite on a non-member: because the removal branch also
requires current membership and "unsubscribe" contains "subscribe" as a
substring, the `elif` subscribe branch fires and appends the sender.
This theorem evaluates the embedded scan at that failing input: a single
unsubscribe message from `a@example.com`, never subscribed, yields
`["a@example.com"]`, not `[]`. -/
theorem c1_unsubscribe_from_nonmember_adds :
    get_subscribers [⟨"a@example.com", "Please unsubscribe me"⟩] [] = ["a@example.com"] := by
  decide

/-- C2: the scan is a strict linear left fold over the message sequence
in inbox order (with the halt flag as explicit fold state), and the
sequence `[subscribe(A), unsubscribe(A), subscribe(A)]` yields `{A}`:
the later subscribe re-adds the address removed by the earlier
unsubscribe. -/
theorem c2_linear_fold_in_order :
    (∀ (msgs : List Message) (acc : List String),
        get_subscribers msgs acc = (List.foldl scanStep (false, acc) msgs).2) ∧
      get_subscribers
        [⟨"a@x.com", "subscribe"⟩, ⟨"a@x.com", "unsubscribe"⟩, ⟨"a@x.com", "subscribe"⟩] [] =
        ["a@x.com"] :=
  ⟨get_subscribers_eq_foldl, by decide⟩

/-- C3: the subscriber collection never holds a duplicate address: each
per-message update preserves `Nodup`, hence every intermediate state and
the final result of a scan started from the empty list are
duplicate-free; in particular `[subscribe(A), subscribe(A)]` yields
`[A]` with `A` counted exactly once. -/
theorem c3_no_duplicate_addresses :
    (∀ (subs : List String) (e subj : String), subs.Nodup → (applyMsg subs e subj).Nodup) ∧
    (∀ (msgs : List Message) (acc : List String), acc.Nodup → (get_subscribers msgs acc).Nodup) ∧
    get_subscribers [⟨"a@x.com", "subscribe"⟩, ⟨"a@x.com", "subscribe"⟩] [] = ["a@x.com"] ∧
    (get_subscribers [⟨"a@x.com", "subscribe"⟩, ⟨"a@x.com", "subscribe"⟩] []).count "a@x.com" = 1 :=
  ⟨fun subs e subj h => applyMsg_nodup subs e subj h,
   fun msgs acc h => get_subscribers_nodup msgs acc h,
   by decide, by decide⟩

/-- Closed instance of C3's `Nodup` preservation at a concrete scan. -/
theorem c3_no_duplicate_addresses_witness :
    (get_subscribers [⟨"a@x.com", "subscribe"⟩, ⟨"a@x.com", "subscribe"⟩] []).Nodup :=
  c3_no_duplicate_addresses.2.1 [⟨"a@x.com", "subscribe"⟩, ⟨"a@x.com", "subscribe"⟩] []
    List.nodup_nil

/-- C4: a message whose `from` header has no substring matching the
permissive address pattern halts the scan: the result over
`pre ++ [malformed] ++ post` equals the result over `pre` alone, so no
later message is processed; in particular
`[subscribe(A), malformed, subscribe(B)]` yields `{A}` and `B` is never
added. -/
theorem c4_malformed_sender_halts_scan :
    (∀ (pre : List Message) (m : Message) (post : List Message) (acc : List String),
        findEmail m.sender = none →
          get_subscribers (pre ++ m :: post) acc = get_subscribers pre acc) ∧
      get_subscribers
        [⟨"a@x.com", "subscribe"⟩, ⟨"???", "subscribe"⟩, ⟨"b@x.com", "subscribe"⟩] [] =
        ["a@x.com"] :=
  ⟨fun pre m post acc h => get_subscribers_halt pre m post acc h, by decide⟩

/-- Closed instance of C4's halt property at a concrete malformed
message. -/
theorem c4_malformed_sender_halts_scan_witness :
    get_subscribers
        ([⟨"a@x.com", "subscribe"⟩] ++ ⟨"???", "subscribe"⟩ :: [⟨"b@x.com", "subscribe"⟩]) [] =
      get_subscribers [⟨"a@x.com", "subscribe"⟩] [] :=
  c4_malformed_sender_halts_scan.1 [⟨"a@x.com", "subscribe"⟩] ⟨"???", "subscribe"⟩
    [⟨"b@x.com", "subscribe"⟩] [] (by decide)

/-- C5 counterexample: the claim says classification is by document TEXT
(case-insensitive substring `<html>`).  On the code it is by file NAME:
a document named `body.txt` whose text is `<html>hi</html>` satisfies
the spec's classification rule, yet the selector puts it in the `plain`
slot of the pair. -/
theorem c5_counterexample_content_ignored :
    isHtmlSpec "<html>hi</html>" = true ∧
      selectContent ⟨"body.txt", "<html>hi</html>"⟩ none =
        Except.ok ⟨none, some "<html>hi</html>"⟩ :=
  ⟨by decide, rfl⟩

/-- C5 amended: the content selector classifies an input document as
HTML exactly when the document's file name ends with the literal suffix
`.html`, and in the single-document case that classification alone
determines whether the pair is `{html: primary, plain: none}` or
`{html: none, plain: primary}`. -/
theorem c5_amended_classification_by_filename :
    ∀ d : Document,
      selectContent d none =
        Except.ok ⟨if pyEndsWith d.name ".html" then some d.body else none,
                   if pyEndsWith d.name ".html" then none else some d.body⟩ := by
  intro d
  cases h : pyEndsWith d.name ".html" <;> simp [selectContent, is_html, h]

/-- C6: with two documents the selector fails exactly when the two
classifications agree — both HTML gives the "Both files are HTML" usage
error, neither HTML gives the "Neither file is HTML" usage error, the
two messages are distinct human-readable strings — and in either case
the whole `send-email` command aborts with that error, so no send is
attempted. -/
theorem c6_conflict_cases : ∀ (d1 d2 : Document),
    ((∃ e, selectContent d1 (some d2) = Except.error e) ↔ is_html d1.name = is_html d2.name) ∧
    (is_html d1.name = true → is_html d2.name = true →
      selectContent d1 (some d2) =
        Except.error "Both files are HTML; you should provide 1 HTML file and 1 plain text file") ∧
    (is_html d1.name = false → is_html d2.name = false →
      selectContent d1 (some d2) =
        Except.error "Neither file is HTML; you should provide 1 HTML file and 1 plain text file") ∧
    ("Both files are HTML; you should provide 1 HTML file and 1 plain text file" ≠
      "Neither file is HTML; you should provide 1 HTML file and 1 plain text file") ∧
    (∀ (msgs : List Message) (subj : Option String) (dry conf : Bool),
      is_html d1.name = is_html d2.name →
        ∃ e, send_email_cmd msgs d1 (some d2) subj dry conf = Except.error e) := by
  intro d1 d2
  cases h1 : is_html d1.name <;> cases h2 : is_html d2.name <;>
    refine ⟨?_, ?_, ?_, by decide, ?_⟩ <;>
    simp [selectContent, send_email_cmd, h1, h2]

/-- Closed instance of C6 at two concrete HTML-named documents. -/
theorem c6_conflict_cases_witness :
    selectContent ⟨"a.html", "A"⟩ (some ⟨"b.html", "B"⟩) =
      Except.error "Both files are HTML; you should provide 1 HTML file and 1 plain text file" :=
  (c6_conflict_cases ⟨"a.html", "A"⟩ ⟨"b.html", "B"⟩).2.1 (by decide) (by decide)

/-- C7: when exactly one of the two documents classifies as HTML, the
selector puts the HTML-classified body in the `html` slot and the other
body in the `plain` slot, and swapping the argument positions yields the
same `ContentPair`. -/
theorem c7_slots_by_classification : ∀ (d1 d2 : Document),
    is_html d1.name = true → is_html d2.name = false →
      selectContent d1 (some d2) = Except.ok ⟨some d1.body, some d2.body⟩ ∧
      selectContent d2 (some d1) = Except.ok ⟨some d1.body, some d2.body⟩ := by
  intro d1 d2 h1 h2
  constructor <;> simp [selectContent, h1, h2]

/-- Closed instance of C7 at the spec's example documents. -/
theorem c7_slots_by_classification_witness :
    selectContent ⟨"a.html", "<html>A</html>"⟩ (some ⟨"b.txt", "plain B"⟩) =
        Except.ok ⟨some "<html>A</html>", some "plain B"⟩ ∧
      selectContent ⟨"b.txt", "plain B"⟩ (some ⟨"a.html", "<html>A</html>"⟩) =
        Except.ok ⟨some "<html>A</html>", some "plain B"⟩ :=
  c7_slots_by_classification ⟨"a.html", "<html>A</html>"⟩ ⟨"b.txt", "plain B"⟩
    (by decide) (by decide)

/-- C8: the claim says a searched part without a matching heading falls
back to the title "Untitled".  On the code, an HTML part without an
`<h1>` capture makes `find_title_in_html` return `None`, and
`html.unescape(None)` raises a `TypeError` (`email_service.py`), while
the `newsletter.py` variant yields a `None` title because its
`or 'Untitled'` binds only to the markdown branch.  The fallback works
as claimed only when no HTML part is present.  This theorem evaluates
the embedded title computations at the failing input `<p>Hello</p>`
(an HTML part with no heading) and at a plain part with no heading. -/
theorem c8_html_part_without_h1_crashes :
    title_email_service id (some "<p>Hello</p>") none = Except.error PyErr.typeError ∧
      title_newsletter (some "<p>Hello</p>") none = Except.ok none ∧
      title_email_service id none (some "body with no heading") = Except.ok "Untitled" :=
  ⟨rfl, rfl, rfl⟩

/-- C9: whenever dry-run is requested, neither send routine ever reaches
`server.sendmail`, for every unescape collaborator, every content
combination, every subscriber set, every terminal state and every
confirmation answer: the run either crashes earlier or reports what it
would have sent. -/
theorem c9_dry_run_never_sends :
    ∀ (unescape : String → String) (html_text plain_text : Option String)
      (subscribers : List String) (subject : Option String) (isatty confirmAnswer : Bool),
      isSentOutcome
          (send_email_service unescape html_text plain_text subscribers true isatty
            confirmAnswer) = false ∧
        isSentOutcome
          (send_email_func html_text plain_text subject subscribers true confirmAnswer) = false := by
  intro u ht pt subs subj tty conf
  constructor
  · cases htt : title_email_service u ht pt with
    | error e => simp [send_email_service, htt, isSentOutcome]
    | ok t =>
      cases hpc : previewCrashes ht pt <;>
        simp [send_email_service, htt, hpc, isSentOutcome]
  · cases htt : title_newsletter ht pt with
    | error e => simp [send_email_func, htt, isSentOutcome]
    | ok t =>
      cases hpc : previewCrashes ht pt <;>
        simp [send_email_func, htt, hpc, isSentOutcome]

/-- C10: every address in the final subscriber set of a scan started
from the empty list was extracted by the address pattern from the `from`
header of a message inside the processed prefix of the input sequence
(the messages before the first unparseable sender); no address is
fabricated and none comes from beyond that prefix. -/
theorem c10_addresses_come_from_processed_prefix :
    ∀ (msgs : List Message) (a : String), a ∈ get_subscribers msgs [] →
      ∃ m, m ∈ msgs.takeWhile (fun mm => (findEmail mm.sender).isSome) ∧
        findEmail m.sender = some a :=
  fun msgs a h =>
    (mem_get_subscribers msgs [] a h).resolve_left (List.not_mem_nil a)

/-- Closed instance of C10 at a concrete one-message scan. -/
theorem c10_addresses_come_from_processed_prefix_witness :
    ∃ m, m ∈ ([⟨"a@x.com", "subscribe"⟩] : List Message).takeWhile
        (fun mm => (findEmail mm.sender).isSome) ∧
      findEmail m.sender = some "a@x.com" :=
  c10_addresses_come_from_processed_prefix [⟨"a@x.com", "subscribe"⟩] "a@x.com" (by decide)

end Nwsl
